import Mathlib

/-!
Shallow embedding of `scratchcloud/ext/api.py`: the missing-value sentinel
(`NotFound`), the path extractor `get_keys`, the attribute-merge contract of
`BaseScratchObject.__setattr__`, and the resource types User / Project /
Studio / Comment with their `_update_all` rules and fetch operations.

Python runtime values are modelled by the inductive `PyVal`.  JSON-decoded
data uses the constructors `noneV`, `boolV`, `intV`, `strV`, `listV`,
`dictV`; the remaining constructors model the runtime objects the module
manipulates: the `NotFound` sentinel instance, scratch objects (a class name
plus an attribute dictionary), the client, `CommentType` enum members,
parsed `datetime` instants (abstracted by their source text), bound method
objects and coroutines (for the `await` semantics of the fetch routines),
and `type(...)` objects (for the `type(x) == 'str'` comparison).
-/

set_option maxHeartbeats 1000000

namespace Scratchcloud

inductive PyVal where
  | noneV : PyVal
  | boolV : Bool → PyVal
  | intV : Int → PyVal
  | strV : String → PyVal
  | listV : List PyVal → PyVal
  | dictV : List (String × PyVal) → PyVal
  | notFoundV : PyVal
  | objV : String → List (String × PyVal) → PyVal
  | clientV : PyVal
  | enumV : String → Nat → PyVal
  | datetimeV : String → PyVal
  | methodV : PyVal → PyVal
  | coroutineV : PyVal → PyVal
  | typeV : String → PyVal

open PyVal

/-- Exceptions that the embedded code can raise. -/
inductive PyErr where
  | notFoundError : PyErr
  | typeError : PyErr
  | keyError : PyErr
  | attributeError : PyErr
  | unboundLocalError : PyErr
  | valueError : PyErr
deriving DecidableEq, Repr

/-- Attribute dictionary of a scratch object (`self.__dict__`). -/
abbrev Attrs := List (String × PyVal)

/-- Python truth of `isinstance(value, NotFound)`. -/
def isNotFound : PyVal → Bool
  | notFoundV => true
  | _ => false

/-- First-match lookup in a string-keyed dictionary (Python dict keys are unique;
JSON-decoded dictionaries carry string keys). -/
def lookupStr : List (String × PyVal) → String → Option PyVal
  | [], _ => none
  | (m, w) :: rest, n => if m = n then some w else lookupStr rest n

/-- Membership test `name in self.__dict__.keys()`. -/
def hasKey : List (String × PyVal) → String → Bool
  | [], _ => false
  | (m, _) :: rest, n => if m = n then true else hasKey rest n

/-- Dictionary write `self.__dict__[name] = value`: update in place when the
key exists, append otherwise (CPython insertion order). -/
def insertAttr : Attrs → String → PyVal → Attrs
  | [], n, v => [(n, v)]
  | (m, w) :: rest, n, v =>
      if m = n then (m, v) :: rest else (m, w) :: insertAttr rest n v

/-- The override `BaseScratchObject.__setattr__`: the write is skipped exactly
when the value is a `NotFound` instance and the name is already present. -/
def setattr (a : Attrs) (n : String) (v : PyVal) : Attrs :=
  if isNotFound v && hasKey a n then a else insertAttr a n v

/-- Attribute read inside an update rule.  Every read site is reached only
after the same name was just ensured present by a `setattr`, so the default
branch is never taken. -/
def getattrD (a : Attrs) (n : String) : PyVal :=
  (lookupStr a n).getD noneV

/-- Attribute read `obj.name` raising `AttributeError` when absent. -/
def getattrE (a : Attrs) (n : String) : Except PyErr PyVal :=
  match lookupStr a n with
  | some v => .ok v
  | none => .error .attributeError

/-- Attribute read on an arbitrary value; only scratch objects have the
attributes the module reads. -/
def pyGetattr : PyVal → String → Except PyErr PyVal
  | objV _ attrs, n => getattrE attrs n
  | _, _ => .error .attributeError

/-- Normalization of a Python sequence index: a negative index counts from
the end. -/
def pyIndexNorm (n : Nat) (i : Int) : Int :=
  if i < 0 then i + n else i

/-- Python list indexing with negative-index support. -/
def listIndex (xs : List PyVal) (i : Int) : Option PyVal :=
  if 0 ≤ pyIndexNorm xs.length i ∧ pyIndexNorm xs.length i < xs.length
  then xs.get? (pyIndexNorm xs.length i).toNat else none

/-- One subscripting step `d[key]`.  `none` stands for any raised exception
(`KeyError`, `IndexError`, `TypeError` on a non-indexable container, …),
which the bare `except` of `get_keys` swallows.  JSON-decoded dictionaries
carry only string keys, so a non-string key into a dictionary is a
`KeyError`; booleans index sequences like the integers 0 and 1 do. -/
def pySubscript : PyVal → PyVal → Option PyVal
  | dictV kvs, strV s => lookupStr kvs s
  | listV xs, intV i => listIndex xs i
  | listV xs, boolV b => listIndex xs (if b then 1 else 0)
  | strV s, intV i => listIndex (s.toList.map (fun c => strV c.toString)) i
  | strV s, boolV b => listIndex (s.toList.map (fun c => strV c.toString)) (if b then 1 else 0)
  | _, _ => none

/-- Subscripting as the raising operation `d[key]` outside a `try`. -/
def pySubscriptE (d k : PyVal) : Except PyErr PyVal :=
  match pySubscript d k with
  | some v => .ok v
  | none => .error .keyError

/-- The module-level extractor `get_keys(d, keys, if_not_found = NotFound())`:
walk the keys, returning the sentinel the moment a step raises. -/
def get_keys : PyVal → List PyVal → PyVal
  | d, [] => d
  | d, k :: ks =>
      match pySubscript d k with
      | some d2 => get_keys d2 ks
      | none => notFoundV

/-- Modelled from the spec (section 4.1): the extractor described as a walk
that yields the nested value, or absence, with no sentinel encoding.  Used
only to compare `get_keys` against the specification text. -/
def walkSpec : PyVal → List PyVal → Option PyVal
  | d, [] => some d
  | d, k :: ks =>
      match pySubscript d k with
      | some d2 => walkSpec d2 ks
      | none => none

mutual

/-- A value is pure JSON-decoded data: no sentinel, object, client, enum,
datetime, method, coroutine or type object inside. -/
def isJsonB : PyVal → Bool
  | noneV => true
  | boolV _ => true
  | intV _ => true
  | strV _ => true
  | listV xs => isJsonL xs
  | dictV kvs => isJsonD kvs
  | _ => false

def isJsonL : List PyVal → Bool
  | [] => true
  | x :: xs => isJsonB x && isJsonL xs

def isJsonD : List (String × PyVal) → Bool
  | [] => true
  | kv :: kvs => isJsonB kv.2 && isJsonD kvs

end

/-- Substring test for Python `k in s` on strings. -/
def strContains (s k : String) : Bool :=
  if k = "" then true else decide ((s.splitOn k).length > 1)

/-- Python membership `k in d` for a string `k`: key membership on a
dictionary, element equality on a list, substring on a string; raises
`TypeError` on non-containers. -/
def pyInE (k : String) (d : PyVal) : Except PyErr Bool :=
  match d with
  | dictV kvs => .ok (kvs.any (fun kv => kv.1 = k))
  | listV xs => .ok (xs.any (fun x => match x with | strV s => s = k | _ => false))
  | strV s => .ok (strContains s k)
  | _ => .error .typeError

/-- Python equality against a string literal.  Only a `str` can equal a
`str`; in particular a type object (`type(x) == 'str'`) never does. -/
def pyEqStr (v : PyVal) (s : String) : Bool :=
  match v with
  | strV t => t = s
  | _ => false

/-- The runtime type name backing `type(x)`. -/
def pyTypeName : PyVal → String
  | noneV => "NoneType"
  | boolV _ => "bool"
  | intV _ => "int"
  | strV _ => "str"
  | listV _ => "list"
  | dictV _ => "dict"
  | notFoundV => "NotFound"
  | objV cls _ => cls
  | clientV => "APIClient"
  | enumV cls _ => cls
  | datetimeV _ => "datetime"
  | methodV _ => "method"
  | coroutineV _ => "coroutine"
  | typeV _ => "type"

/-- Python `len(x)`: dictionaries count entries, lists elements, strings
characters; anything else raises `TypeError`. -/
def pyLenE : PyVal → Except PyErr Int
  | dictV kvs => .ok kvs.length
  | listV xs => .ok xs.length
  | strV s => .ok s.length
  | _ => .error .typeError

/-- Python iteration `for x in d`: lists yield elements, dictionaries their
keys, strings their characters; anything else raises `TypeError`. -/
def pyIterE : PyVal → Except PyErr (List PyVal)
  | listV xs => .ok xs
  | dictV kvs => .ok (kvs.map (fun kv => strV kv.1))
  | strV s => .ok (s.toList.map (fun c => strV c.toString))
  | _ => .error .typeError

/-- Keyword splat `f(**v)`: a mapping yields its pairs, anything else —
in particular a `NotFound` sentinel instance — raises `TypeError`. -/
def splatKwargs : PyVal → Except PyErr (List (String × PyVal))
  | dictV kvs => .ok kvs
  | _ => .error .typeError

/-- String interpolation of a value into an f-string.  The update rules only
interpolate strings and integers; the remaining cases echo `str(x)` where it
is address-independent and are never exercised by the claims. -/
def pyStr : PyVal → String
  | strV s => s
  | intV n => toString n
  | boolV b => if b then "True" else "False"
  | noneV => "None"
  | _ => "object"

/-- Python `await x`: a coroutine resolves to its result; awaiting anything
else — in particular a bound method object that was never called — raises
`TypeError`. -/
def pyAwait : PyVal → Except PyErr PyVal
  | coroutineV r => .ok r
  | _ => .error .typeError

/-- Calling a bound method object, `x.json()`: yields the stored coroutine. -/
def pyCall : PyVal → Except PyErr PyVal
  | methodV r => .ok r
  | _ => .error .typeError

/-- An aiohttp response whose `json` method, once called and awaited,
resolves to `body`. -/
def mkResponse (body : PyVal) : PyVal :=
  objV "ClientResponse" [("json", methodV (coroutineV body))]

/-- The resolution pipeline `await data.json()` shared by the fetch
routines that spell it correctly. -/
def respJson (resp : PyVal) : Except PyErr PyVal := do
  let m ← pyGetattr resp "json"
  let c ← pyCall m
  pyAwait c

/-- Abstraction of `datetime.strptime(v, fmt)`: a parsed instant carrying its
source text.  Every call site is guarded by `type(v) == 'str'`, which is
Python-false, so this is dead code in the module. -/
def strptimeModel (v : PyVal) : PyVal :=
  datetimeV (pyStr v)

/-- The repeated normalization pattern of the update rules:
`if type(self.f) == 'str': self.f = datetime.strptime(self.f, fmt)`. -/
def normTs (self : Attrs) (name : String) : Attrs :=
  let v := getattrD self name
  if pyEqStr (typeV (pyTypeName v)) "str" then setattr self name (strptimeModel v)
  else self

/-- The member `CommentType(n)` (`Project = 0`, `Studio = 1`, `Profile = 2`). -/
def commentTypeV (n : Nat) : PyVal :=
  enumV "CommentType" n

/-- The read `self.comment_type.value`. -/
def commentTypeValE (self : Attrs) : Except PyErr Nat := do
  let ct ← getattrE self "comment_type"
  match ct with
  | enumV _ n => .ok n
  | _ => .error .attributeError

/-- The body of `User._update_all(data)`: a flat sequence of guarded
assignments through `BaseScratchObject.__setattr__`. -/
def userUpdateAll (self : Attrs) (data : PyVal) : Attrs :=
  let self := setattr self "id" (get_keys data [strV "id"])
  let self := setattr self "name" (get_keys data [strV "username"])
  let self := setattr self "scratchteam" (get_keys data [strV "scratchteam"])
  let self := setattr self "joined_at" (get_keys data [strV "history", strV "joined"])
  let self := normTs self "joined_at"
  let self := setattr self "image_90x90" (get_keys data [strV "profile", strV "images", strV "90x90"])
  let self := setattr self "image_60x60" (get_keys data [strV "profile", strV "images", strV "60x60"])
  let self := setattr self "image_55x55" (get_keys data [strV "profile", strV "images", strV "55x55"])
  let self := setattr self "image_50x50" (get_keys data [strV "profile", strV "images", strV "50x50"])
  let self := setattr self "image_32x32" (get_keys data [strV "profile", strV "images", strV "32x32"])
  let self := setattr self "status" (get_keys data [strV "profile", strV "status"])
  let self := setattr self "bio" (get_keys data [strV "profile", strV "bio"])
  let self := setattr self "country" (get_keys data [strV "profile", strV "country"])
  self

/-- `User.__init__(client, **kwargs)`: bind the client, then run the update
rule on the keyword dictionary. -/
def userInitAttrs (kwargs : PyVal) : Attrs :=
  userUpdateAll (setattr [] "client" clientV) kwargs

/-- `User.fetch_api`: resolve the body and re-run the update rule.  The
source performs no `NotFound` translation here. -/
def userFetchApi (self : Attrs) (resp : PyVal) : Except PyErr Attrs := do
  let data ← respJson resp
  .ok (userUpdateAll self data)

/-- The soft-failure check shared by the four `APIClient` fetch routines:
`if 'code' in data: if data['code'] == 'NotFound': raise NotFoundError()`. -/
def checkNotFound (data : PyVal) : Except PyErr Unit := do
  let b ← pyInE "code" data
  if b then
    let c ← pySubscriptE data (strV "code")
    if pyEqStr c "NotFound" then .error .notFoundError else .ok ()
  else .ok ()

/-- `APIClient.fetch_user`: resolve the body, translate the soft failure,
then construct `User(self, **data)`. -/
def fetchUser (resp : PyVal) : Except PyErr PyVal := do
  let data ← respJson resp
  checkNotFound data
  let kvs ← splatKwargs data
  .ok (objV "User" (userInitAttrs (dictV kvs)))

/-- `APIClient.fetch_message_count`: resolve the body, translate the soft
failure, then return `data['count']`. -/
def fetchMessageCount (resp : PyVal) : Except PyErr PyVal := do
  let data ← respJson resp
  checkNotFound data
  pySubscriptE data (strV "count")

/-- The body of `Project._update_all(data)`.  The author construction
`Author(self.client, **get_keys(data, ['author']))` splats the extractor
result, so a missing `author` key raises `TypeError`. -/
def projectUpdateAll (self : Attrs) (data : PyVal) : Except PyErr Attrs := do
  let self := setattr self "id" (get_keys data [strV "id"])
  let self := setattr self "title" (get_keys data [strV "title"])
  let self := setattr self "description" (get_keys data [strV "description"])
  let self := setattr self "instructions" (get_keys data [strV "instructions"])
  let self := setattr self "visibility" (get_keys data [strV "visibility"])
  let self := setattr self "public" (get_keys data [strV "public"])
  let self := setattr self "comments_allowed" (get_keys data [strV "comments_allowed"])
  let self := setattr self "is_published" (get_keys data [strV "is_published"])
  let akvs ← splatKwargs (get_keys data [strV "author"])
  let self := setattr self "author" (objV "Author" (userInitAttrs (dictV akvs)))
  let self := setattr self "image" (get_keys data [strV "image"])
  let self := setattr self "created_at" (get_keys data [strV "history", strV "created"])
  let self := normTs self "created_at"
  let self := setattr self "modified_at" (get_keys data [strV "history", strV "modified"])
  let self := normTs self "modified_at"
  let self := setattr self "shared_at" (get_keys data [strV "history", strV "shared"])
  let self := normTs self "shared_at"
  let self := setattr self "views" (get_keys data [strV "stats", strV "views"])
  let self := setattr self "loves" (get_keys data [strV "stats", strV "loves"])
  let self := setattr self "favorites" (get_keys data [strV "stats", strV "favorites"])
  let self := setattr self "remixes" (get_keys data [strV "stats", strV "remixes"])
  let self := setattr self "remix_parent" (get_keys data [strV "remix", strV "parent"])
  let self := setattr self "remix_root" (get_keys data [strV "remix", strV "root"])
  .ok self

/-- `Project.__init__(client, **kwargs)`: bind the client, initialize the
content cache slot to `None`, then run the update rule. -/
def projectInitAttrs (kwargs : PyVal) : Except PyErr Attrs :=
  projectUpdateAll (setattr (setattr [] "client" clientV) "project_json" noneV) kwargs

/-- `APIClient.fetch_project`: resolve the body, translate the soft failure,
then construct `Project(self, **data)`. -/
def fetchProject (resp : PyVal) : Except PyErr PyVal := do
  let data ← respJson resp
  checkNotFound data
  let kvs ← splatKwargs data
  let attrs ← projectInitAttrs (dictV kvs)
  .ok (objV "Project" attrs)

/-- The body of `Studio._update_all(data)`. -/
def studioUpdateAll (self : Attrs) (data : PyVal) : Attrs :=
  let self := setattr self "id" (get_keys data [strV "id"])
  let self := setattr self "title" (get_keys data [strV "title"])
  let self := setattr self "host_id" (get_keys data [strV "host"])
  let self := setattr self "description" (get_keys data [strV "description"])
  let self := setattr self "visibility" (get_keys data [strV "visibility"])
  let self := setattr self "public" (get_keys data [strV "public"])
  let self := setattr self "open_to_all" (get_keys data [strV "open_to_all"])
  let self := setattr self "comments_allowed" (get_keys data [strV "comments_allowed"])
  let self := setattr self "image" (get_keys data [strV "image"])
  let self := setattr self "created_at" (get_keys data [strV "created"])
  let self := normTs self "created_at"
  let self := setattr self "modified_at" (get_keys data [strV "modified"])
  let self := normTs self "modified_at"
  let self := setattr self "num_comments" (get_keys data [strV "comments"])
  let self := setattr self "num_followers" (get_keys data [strV "followers"])
  let self := setattr self "num_managers" (get_keys data [strV "managers"])
  let self := setattr self "num_projects" (get_keys data [strV "projects"])
  self

/-- `Studio.__init__(client, **kwargs)`. -/
def studioInitAttrs (kwargs : PyVal) : Attrs :=
  studioUpdateAll (setattr [] "client" clientV) kwargs

/-- `APIClient.fetch_studio`: resolve the body, translate the soft failure,
then construct `Studio(self, **data)`. -/
def fetchStudio (resp : PyVal) : Except PyErr PyVal := do
  let data ← respJson resp
  checkNotFound data
  let kvs ← splatKwargs data
  .ok (objV "Studio" (studioInitAttrs (dictV kvs)))

/-- `Studio.fetch_api`: the source reads `data = await data.json` — the bound
method object is awaited without being called — so the body is never
resolved before `_update_all`. -/
def studioFetchApi (self : Attrs) (resp : PyVal) : Except PyErr Attrs := do
  let m ← pyGetattr resp "json"
  let data ← pyAwait m
  .ok (studioUpdateAll self data)

/-- The body of `Comment._update_all(data)` given the constructed-in context
kind `self.comment_type`.  Only the matching back-reference branch runs; the
author construction splats the extractor result like `Project`'s. -/
def commentUpdateAll (self : Attrs) (data : PyVal) : Except PyErr Attrs := do
  let ct ← commentTypeValE self
  let self := if ct = 0 then setattr self "project" (get_keys data [strV "project"]) else self
  let self := if ct = 1 then setattr self "studio" (get_keys data [strV "studio"]) else self
  let self := setattr self "id" (get_keys data [strV "id"])
  let self := setattr self "parent_id" (get_keys data [strV "parent_id"])
  let self := setattr self "parent_author_id" (get_keys data [strV "commentee_id"])
  let self := setattr self "content" (get_keys data [strV "content"])
  let self := setattr self "created_at" (get_keys data [strV "datetime_created"])
  let self := normTs self "created_at"
  let self := setattr self "modified_at" (get_keys data [strV "datetime_modified"])
  let self := normTs self "modified_at"
  let self := setattr self "visibility" (get_keys data [strV "visibility"])
  let self := setattr self "reply_count" (get_keys data [strV "reply_count"])
  let akvs ← splatKwargs (get_keys data [strV "author"])
  let self := setattr self "author" (objV "Author" (userInitAttrs (dictV akvs)))
  .ok self

/-- `Comment.__init__(client, comment_type, **kwargs)`. -/
def commentInitAttrs (ct : Nat) (kwargs : PyVal) : Except PyErr Attrs :=
  commentUpdateAll (setattr (setattr [] "client" clientV) "comment_type" (commentTypeV ct)) kwargs

/-- The project-reply endpoint f-string of `Comment.fetch_replies`. -/
def projectRepliesURL (nm pid cid : PyVal) (offset limit : Int) : String :=
  "https://api.scratch.mit.edu/users/" ++ pyStr nm ++ "/projects/" ++ pyStr pid ++
  "/comments/" ++ pyStr cid ++ "/replies?offset=" ++ toString offset ++
  "&limit=" ++ toString limit

/-- The studio-reply endpoint f-string of `Comment.fetch_replies`. -/
def studioRepliesURL (sid cid : PyVal) (offset limit : Int) : String :=
  "https://api.scratch.mit.edu/studios/" ++ pyStr sid ++ "/comments/" ++ pyStr cid ++
  "/replies?offset=" ++ toString offset ++ "&limit=" ++ toString limit

/-- The `PATH` variable of `Comment.fetch_replies`: assigned by the
`comment_type` branch, or left unassigned (`none`) for the Profile kind,
which has no branch. -/
def commentReplyPath (self : Attrs) (offset limit : Int) : Except PyErr (Option String) := do
  let ct ← commentTypeValE self
  if ct = 0 then do
    let proj ← getattrE self "project"
    let auth ← pyGetattr proj "author"
    let nm ← pyGetattr auth "name"
    let pid ← pyGetattr proj "id"
    let cid ← getattrE self "id"
    .ok (some (projectRepliesURL nm pid cid offset limit))
  else if ct = 1 then do
    let st ← getattrE self "studio"
    let sid ← pyGetattr st "id"
    let cid ← getattrE self "id"
    .ok (some (studioRepliesURL sid cid offset limit))
  else .ok none

/-- Keyword dictionary of `Reply(self.client, self.comment_type,
project = self.project, **comment)`: a wire comment that itself carries the
back-reference keyword would be a duplicate keyword argument. -/
def replyKwargs (backName : String) (backVal : PyVal) (c : PyVal) : Except PyErr PyVal := do
  let kvs ← splatKwargs c
  if kvs.any (fun kv => kv.1 = backName) then .error .typeError
  else .ok (dictV ((backName, backVal) :: kvs))

/-- The construction loop of `Comment.fetch_replies`: each wire element
becomes a `Reply` carrying the parent's context kind and back-reference. -/
def buildReplies (ct : Nat) (back : PyVal) : List PyVal → Except PyErr (List PyVal)
  | [] => .ok []
  | c :: cs => do
      let kw ← replyKwargs (if ct = 0 then "project" else "studio") back c
      let a ← commentInitAttrs ct kw
      let rest ← buildReplies ct back cs
      .ok (objV "Reply" a :: rest)

/-- `Comment.fetch_replies(limit, offset)` against a transport whose GET
returns `resp`.  The first component counts the GETs issued: evaluating an
unassigned `PATH` raises `UnboundLocalError` before any transport call. -/
def commentFetchReplies (self : Attrs) (offset limit : Int) (resp : PyVal) :
    Nat × Except PyErr (String × List PyVal) :=
  match commentReplyPath self offset limit with
  | .error e => (0, .error e)
  | .ok none => (0, .error .unboundLocalError)
  | .ok (some path) =>
      (1, do
        let body ← respJson resp
        let items ← pyIterE body
        let ct ← commentTypeValE self
        let back ← if ct = 0 then getattrE self "project" else getattrE self "studio"
        let reps ← buildReplies ct back items
        .ok (path, reps))

/-- Runtime state of a `Project` instance paired with the number of content
GETs issued so far. -/
structure ProjState where
  attrs : Attrs
  fetches : Nat

/-- `Project.fetch_project_json` against a content server that always serves
`content`: one GET, resolve the body, store it in `self.project_json`
(ordinary assignment, no presence check), return it. -/
def projectFetchJson (content : PyVal) (st : ProjState) : Except PyErr (ProjState × PyVal) := do
  let st : ProjState := { st with fetches := st.fetches + 1 }
  let data ← respJson (mkResponse content)
  .ok ({ st with attrs := setattr st.attrs "project_json" data }, data)

/-- The accumulation loop of `Project.fetch_block_count`:
`blocks += len(sprite['blocks'])` over the sprites. -/
def blockLoop : List PyVal → Except PyErr Int
  | [] => .ok 0
  | s :: rest => do
      let b ← pySubscriptE s (strV "blocks")
      let n ← pyLenE b
      let m ← blockLoop rest
      .ok (n + m)

/-- `Project.fetch_block_count`: call `fetch_project_json` unconditionally,
then sum the block-map sizes over `project['targets']`. -/
def projectFetchBlockCount (content : PyVal) (st : ProjState) : Except PyErr (ProjState × Int) := do
  let (st, project) ← projectFetchJson content st
  let targets ← pySubscriptE project (strV "targets")
  let sprites ← pyIterE targets
  let n ← blockLoop sprites
  .ok (st, n)

/-- The loop body of `Studio.fetch_projects`: read the five listing keys and
construct `StudioProject(client, id, title, image, author = {'id':
creator_id, 'username': username})`. -/
def studioBuildProject (proj : PyVal) : Except PyErr PyVal := do
  let i ← pySubscriptE proj (strV "id")
  let t ← pySubscriptE proj (strV "title")
  let img ← pySubscriptE proj (strV "image")
  let cid ← pySubscriptE proj (strV "creator_id")
  let un ← pySubscriptE proj (strV "username")
  let attrs ← projectInitAttrs
    (dictV [("id", i), ("title", t), ("image", img),
            ("author", dictV [("id", cid), ("username", un)])])
  .ok (objV "StudioProject" attrs)

/-- The construction loop of `Studio.fetch_projects`. -/
def buildStudioProjects : List PyVal → Except PyErr (List PyVal)
  | [] => .ok []
  | p :: ps => do
      let sp ← studioBuildProject p
      let rest ← buildStudioProjects ps
      .ok (sp :: rest)

/-- `Studio.fetch_projects` given the GET response. -/
def studioFetchProjects (resp : PyVal) : Except PyErr (List PyVal) := do
  let body ← respJson resp
  let items ← pyIterE body
  buildStudioProjects items

/-- Whether a fallible computation finished without raising. -/
def exceptOk {α : Type} : Except PyErr α → Bool
  | .ok _ => true
  | .error _ => false

/-- Size of a sprite's block map (specification-side description of one
summand of the block count); 0 where the code would instead raise. -/
def blocksLenD (s : PyVal) : Int :=
  match pySubscript s (strV "blocks") with
  | some (dictV kvs) => kvs.length
  | some (listV xs) => xs.length
  | some (strV t) => t.length
  | _ => 0

/-- Sum of the block-map sizes over a sprite list. -/
def blockSum (sprites : List PyVal) : Int :=
  (sprites.map blocksLenD).sum

/-- A concrete two-sprite content document: three blocks in total. -/
def sampleSprites : List PyVal :=
  [dictV [("blocks", dictV [("a", noneV), ("b", noneV)])],
   dictV [("blocks", dictV [("c", noneV)])]]

/-- The content document served by the sample content server. -/
def sampleContent : PyVal :=
  dictV [("targets", listV sampleSprites)]

/-- A concrete project back-reference with an author name and ids. -/
def samplePA : Attrs :=
  [("client", clientV), ("id", intV 7), ("author", objV "Author" [("name", strV "al")])]

/-- A concrete project-kind comment holding that back-reference. -/
def sampleComment : Attrs :=
  [("client", clientV), ("comment_type", commentTypeV 0),
   ("project", objV "Project" samplePA), ("id", intV 3)]

/-- A concrete one-element reply listing as served by the API. -/
def sampleWire : PyVal :=
  listV [dictV [("id", intV 10), ("author", dictV [])]]

/-! Helper lemmas about the attribute dictionary and the extractor. -/

theorem except_bind_ok {α β : Type} (a : α) (f : α → Except PyErr β) :
    (Except.ok a >>= f) = f a := rfl

theorem except_bind_error {α β : Type} (e : PyErr) (f : α → Except PyErr β) :
    ((Except.error e : Except PyErr α) >>= f) = .error e := rfl

theorem lookupStr_insertAttr_eq (a : Attrs) (n : String) (v : PyVal) :
    lookupStr (insertAttr a n v) n = some v := by
  induction a with
  | nil => simp [insertAttr, lookupStr]
  | cons kv rest ih =>
      obtain ⟨m, w⟩ := kv
      by_cases h : m = n
      · simp [insertAttr, lookupStr, h]
      · simp [insertAttr, lookupStr, h, ih]

theorem lookupStr_insertAttr_ne (a : Attrs) (n m : String) (v : PyVal) (h : m ≠ n) :
    lookupStr (insertAttr a n v) m = lookupStr a m := by
  have hnm : ¬n = m := fun hc => h hc.symm
  induction a with
  | nil =>
      simp only [insertAttr, lookupStr]
      rw [if_neg hnm]
  | cons kv rest ih =>
      obtain ⟨k, w⟩ := kv
      simp only [insertAttr]
      by_cases hk : k = n
      · subst hk
        rw [if_pos rfl]
        simp only [lookupStr]
        rw [if_neg hnm, if_neg hnm]
      · rw [if_neg hk]
        simp only [lookupStr]
        by_cases hm : k = m
        · rw [if_pos hm, if_pos hm]
        · rw [if_neg hm, if_neg hm]
          exact ih

theorem lookupStr_setattr_ne (a : Attrs) (n m : String) (v : PyVal) (h : m ≠ n) :
    lookupStr (setattr a n v) m = lookupStr a m := by
  unfold setattr
  by_cases hc : (isNotFound v && hasKey a n) = true
  · rw [if_pos hc]
  · rw [if_neg hc]
    exact lookupStr_insertAttr_ne a n m v h

theorem hasKey_insertAttr (a : Attrs) (n m : String) (v : PyVal) :
    hasKey (insertAttr a n v) m = (decide (m = n) || hasKey a m) := by
  induction a with
  | nil =>
      simp only [insertAttr, hasKey]
      by_cases hm : m = n
      · subst hm
        rw [if_pos rfl]
        simp
      · rw [if_neg (fun hc => hm hc.symm)]
        simp [hm]
  | cons kv rest ih =>
      obtain ⟨k, w⟩ := kv
      simp only [insertAttr]
      by_cases hk : k = n
      · subst hk
        rw [if_pos rfl]
        simp only [hasKey]
        by_cases hm : k = m
        · rw [if_pos hm]
          simp
        · rw [if_neg hm]
          have hmk : ¬m = k := fun hc => hm hc.symm
          simp [hmk]
      · rw [if_neg hk]
        simp only [hasKey]
        by_cases hm : k = m
        · rw [if_pos hm]
          rw [if_pos hm]
          simp
        · rw [if_neg hm]
          rw [if_neg hm]
          exact ih

theorem hasKey_setattr (a : Attrs) (n m : String) (v : PyVal) :
    hasKey (setattr a n v) m = (decide (m = n) || hasKey a m) := by
  unfold setattr
  by_cases hc : (isNotFound v && hasKey a n) = true
  · rw [if_pos hc]
    have hk : hasKey a n = true := ((Bool.and_eq_true _ _).mp hc).2
    by_cases hm : m = n
    · subst hm
      simp [hk]
    · simp [hm]
  · rw [if_neg hc]
    exact hasKey_insertAttr a n m v

theorem lookupStr_setattr_fresh (a : Attrs) (n : String) (v : PyVal)
    (h : hasKey a n = false) :
    lookupStr (setattr a n v) n = some v := by
  unfold setattr
  simp [h, lookupStr_insertAttr_eq]

theorem lookupStr_setattr_real (a : Attrs) (n : String) (v : PyVal)
    (h : isNotFound v = false) :
    lookupStr (setattr a n v) n = some v := by
  unfold setattr
  simp [h, lookupStr_insertAttr_eq]

theorem setattr_skip (a : Attrs) (n : String) (v : PyVal)
    (hv : isNotFound v = true) (hk : hasKey a n = true) :
    setattr a n v = a := by
  unfold setattr
  simp [hv, hk]

theorem hasKey_eq_isSome_lookupStr (a : Attrs) (n : String) :
    hasKey a n = (lookupStr a n).isSome := by
  induction a with
  | nil => simp [hasKey, lookupStr]
  | cons kv rest ih =>
      obtain ⟨k, w⟩ := kv
      by_cases h : k = n <;> simp [hasKey, lookupStr, h, ih]

/-! JSON preservation for the extractor (claim C1). -/

theorem isJsonB_of_lookupStr (kvs : List (String × PyVal)) (s : String) (m : PyVal)
    (hj : isJsonD kvs = true) (hl : lookupStr kvs s = some m) :
    isJsonB m = true := by
  induction kvs with
  | nil => simp [lookupStr] at hl
  | cons kv rest ih =>
      rw [isJsonD] at hj
      obtain ⟨k, w⟩ := kv
      have hj1 : isJsonB w = true := ((Bool.and_eq_true _ _).mp hj).1
      have hj2 : isJsonD rest = true := ((Bool.and_eq_true _ _).mp hj).2
      rw [lookupStr] at hl
      by_cases h : k = s
      · rw [if_pos h] at hl
        injection hl with hw
        subst hw
        exact hj1
      · rw [if_neg h] at hl
        exact ih hj2 hl

theorem isJsonB_of_mem (xs : List PyVal) (m : PyVal)
    (hj : isJsonL xs = true) (hm : m ∈ xs) : isJsonB m = true := by
  induction xs with
  | nil => cases hm
  | cons x rest ih =>
      rw [isJsonL] at hj
      rcases List.mem_cons.mp hm with h | h
      · subst h
        exact (Bool.and_eq_true _ _).mp hj |>.1
      · exact ih ((Bool.and_eq_true _ _).mp hj).2 h

theorem mem_of_listIndex (xs : List PyVal) (i : Int) (m : PyVal)
    (h : listIndex xs i = some m) : m ∈ xs := by
  unfold listIndex at h
  by_cases hc : 0 ≤ pyIndexNorm xs.length i ∧ pyIndexNorm xs.length i < (xs.length : Int)
  · rw [if_pos hc] at h
    exact List.get?_mem h
  · rw [if_neg hc] at h
    exact absurd h (by simp)

theorem isJsonB_pySubscript (d k m : PyVal)
    (hd : isJsonB d = true) (hs : pySubscript d k = some m) :
    isJsonB m = true := by
  unfold pySubscript at hs
  split at hs
  · rename_i kvs s
    exact isJsonB_of_lookupStr kvs s m (by rw [isJsonB] at hd; exact hd) hs
  · rename_i xs i
    exact isJsonB_of_mem xs m (by rw [isJsonB] at hd; exact hd) (mem_of_listIndex _ _ _ hs)
  · rename_i xs b
    exact isJsonB_of_mem xs m (by rw [isJsonB] at hd; exact hd) (mem_of_listIndex _ _ _ hs)
  · rename_i s i
    obtain ⟨c, _, hc⟩ := List.mem_map.mp (mem_of_listIndex _ _ _ hs)
    subst hc
    rfl
  · rename_i s b
    obtain ⟨c, _, hc⟩ := List.mem_map.mp (mem_of_listIndex _ _ _ hs)
    subst hc
    rfl
  · exact absurd hs (by simp)

theorem isJsonB_ne_notFound (d : PyVal) (hd : isJsonB d = true) : d ≠ PyVal.notFoundV := by
  intro h
  subst h
  simp [isJsonB] at hd

/-- C1: for every JSON document `d` and path `p`, `get_keys(d, p)` returns
the `NotFound` sentinel if and only if some prefix of `p` walks to a value
at which the next key is absent or the container is not indexable; otherwise
it returns the exact nested value (the one the specification's walk
reaches).  `get_keys` is a total function, so no exception escapes. -/
theorem claim_C1_get_keys (d : PyVal) (p : List PyVal) (h : isJsonB d = true) :
    (get_keys d p = PyVal.notFoundV ↔
      ∃ q k r, p = q ++ k :: r ∧ ∃ m, walkSpec d q = some m ∧ pySubscript m k = none)
    ∧ (∀ v, walkSpec d p = some v → get_keys d p = v) := by
  induction p generalizing d with
  | nil =>
      constructor
      · constructor
        · intro hk
          rw [get_keys] at hk
          exact absurd hk (isJsonB_ne_notFound d h)
        · rintro ⟨q, k, r, hp, -⟩
          cases q <;> simp at hp
      · intro v hv
        exact Option.some.inj hv
  | cons k ks ih =>
      cases hsub : pySubscript d k with
      | none =>
          constructor
          · constructor
            · intro _
              exact ⟨[], k, ks, rfl, d, rfl, hsub⟩
            · intro _
              rw [get_keys, hsub]
          · intro v hv
            rw [walkSpec, hsub] at hv
            exact absurd hv (by simp)
      | some d2 =>
          have h2 : isJsonB d2 = true := isJsonB_pySubscript d k d2 h hsub
          have IH := ih d2 h2
          have hgk : get_keys d (k :: ks) = get_keys d2 ks := by rw [get_keys, hsub]
          have hws : walkSpec d (k :: ks) = walkSpec d2 ks := by rw [walkSpec, hsub]
          constructor
          · rw [hgk]
            constructor
            · intro hk
              obtain ⟨q', k', r', hks, m, hw, hs⟩ := IH.1.mp hk
              refine ⟨k :: q', k', r', by rw [hks]; rfl, m, ?_, hs⟩
              rw [walkSpec, hsub]
              exact hw
            · rintro ⟨q, k0, r, hp, m, hw, hs⟩
              cases q with
              | nil =>
                  simp only [List.nil_append, List.cons.injEq] at hp
                  obtain ⟨hk0, hr⟩ := hp
                  rw [walkSpec] at hw
                  injection hw with hw
                  subst hk0
                  rw [← hw, hsub] at hs
                  cases hs
              | cons k1 q' =>
                  simp only [List.cons_append, List.cons.injEq] at hp
                  obtain ⟨hk1, hks⟩ := hp
                  subst hk1
                  rw [walkSpec, hsub] at hw
                  exact IH.1.mpr ⟨q', k0, r, hks, m, hw, hs⟩
          · intro v hv
            rw [hws] at hv
            rw [hgk]
            exact IH.2 v hv

/-- Witness for C1 at a concrete document and path: the document is JSON,
a present path returns the nested value, and a path broken at its second
step returns the sentinel with the promised failing prefix. -/
theorem claim_C1_get_keys_witness :
    isJsonB (PyVal.dictV [("profile", PyVal.dictV [("bio", PyVal.strV "hi")])]) = true ∧
    get_keys (PyVal.dictV [("profile", PyVal.dictV [("bio", PyVal.strV "hi")])])
      [PyVal.strV "profile", PyVal.strV "bio"] = PyVal.strV "hi" := by
  constructor
  · rfl
  · exact (claim_C1_get_keys
      (PyVal.dictV [("profile", PyVal.dictV [("bio", PyVal.strV "hi")])])
      [PyVal.strV "profile", PyVal.strV "bio"] rfl).2 (PyVal.strV "hi") rfl

/-- A type object never equals the string `'str'`, so the timestamp
normalization branch of every update rule is dead code. -/
theorem normTs_eq_self (s : Attrs) (nm : String) : normTs s nm = s := by
  unfold normTs
  rw [if_neg]
  intro hc
  simp [pyEqStr] at hc

theorem lookupStr_setattr_keep (a : Attrs) (n : String) (x : PyVal)
    (h : lookupStr a n = some x) :
    lookupStr (setattr a n PyVal.notFoundV) n = some x := by
  have hk : hasKey a n = true := by rw [hasKey_eq_isSome_lookupStr, h]; rfl
  rw [setattr_skip a n PyVal.notFoundV rfl hk]
  exact h

/-- C2: the merge contract of `BaseScratchObject.__setattr__`.  Assigning
the sentinel to a slot holding a non-sentinel value leaves the object
unchanged; a non-sentinel assignment always lands; assigning the sentinel
to an absent slot initializes it; assigning the sentinel over the sentinel
leaves the sentinel; and consequently `User._update_all` with data missing
`profile.bio` never regresses a populated `bio` field. -/
theorem claim_C2_setattr_merge :
    (∀ (a : Attrs) (n : String) (x : PyVal), lookupStr a n = some x → isNotFound x = false →
        setattr a n PyVal.notFoundV = a)
    ∧ (∀ (a : Attrs) (n : String) (v : PyVal), isNotFound v = false →
        lookupStr (setattr a n v) n = some v)
    ∧ (∀ (a : Attrs) (n : String), lookupStr a n = none →
        lookupStr (setattr a n PyVal.notFoundV) n = some PyVal.notFoundV)
    ∧ (∀ (a : Attrs) (n : String), lookupStr a n = some PyVal.notFoundV →
        lookupStr (setattr a n PyVal.notFoundV) n = some PyVal.notFoundV)
    ∧ (∀ (a : Attrs) (data : PyVal) (b : String),
        lookupStr a "bio" = some (PyVal.strV b) →
        get_keys data [PyVal.strV "profile", PyVal.strV "bio"] = PyVal.notFoundV →
        lookupStr (userUpdateAll a data) "bio" = some (PyVal.strV b)) := by
  refine ⟨?_, ?_, ?_, ?_, ?_⟩
  · intro a n x h _
    have hk : hasKey a n = true := by rw [hasKey_eq_isSome_lookupStr, h]; rfl
    exact setattr_skip a n PyVal.notFoundV rfl hk
  · intro a n v hv
    exact lookupStr_setattr_real a n v hv
  · intro a n h
    have hk : hasKey a n = false := by rw [hasKey_eq_isSome_lookupStr, h]; rfl
    exact lookupStr_setattr_fresh a n _ hk
  · intro a n h
    exact lookupStr_setattr_keep a n _ h
  · intro a data b hb hm
    simp only [userUpdateAll, normTs_eq_self]
    rw [hm]
    rw [lookupStr_setattr_ne _ _ _ _ (by decide : ("bio" : String) ≠ "country")]
    apply lookupStr_setattr_keep
    rw [lookupStr_setattr_ne _ _ _ _ (by decide : ("bio" : String) ≠ "status")]
    rw [lookupStr_setattr_ne _ _ _ _ (by decide : ("bio" : String) ≠ "image_32x32")]
    rw [lookupStr_setattr_ne _ _ _ _ (by decide : ("bio" : String) ≠ "image_50x50")]
    rw [lookupStr_setattr_ne _ _ _ _ (by decide : ("bio" : String) ≠ "image_55x55")]
    rw [lookupStr_setattr_ne _ _ _ _ (by decide : ("bio" : String) ≠ "image_60x60")]
    rw [lookupStr_setattr_ne _ _ _ _ (by decide : ("bio" : String) ≠ "image_90x90")]
    rw [lookupStr_setattr_ne _ _ _ _ (by decide : ("bio" : String) ≠ "joined_at")]
    rw [lookupStr_setattr_ne _ _ _ _ (by decide : ("bio" : String) ≠ "scratchteam")]
    rw [lookupStr_setattr_ne _ _ _ _ (by decide : ("bio" : String) ≠ "name")]
    rw [lookupStr_setattr_ne _ _ _ _ (by decide : ("bio" : String) ≠ "id")]
    exact hb

/-- Witness for C2: a populated `bio` slot survives a sentinel write and a
narrower `_update_all`; a non-sentinel write and a fresh sentinel write
land. -/
theorem claim_C2_setattr_merge_witness :
    setattr [("bio", PyVal.strV "hello")] "bio" PyVal.notFoundV = [("bio", PyVal.strV "hello")]
    ∧ lookupStr (setattr [] "bio" (PyVal.strV "hello")) "bio" = some (PyVal.strV "hello")
    ∧ lookupStr (setattr [] "bio" PyVal.notFoundV) "bio" = some PyVal.notFoundV
    ∧ lookupStr (userUpdateAll [("bio", PyVal.strV "hello")] (PyVal.dictV [("id", PyVal.intV 1)]))
        "bio" = some (PyVal.strV "hello") :=
  ⟨claim_C2_setattr_merge.1 [("bio", PyVal.strV "hello")] "bio" (PyVal.strV "hello") rfl rfl,
   claim_C2_setattr_merge.2.1 [] "bio" (PyVal.strV "hello") rfl,
   claim_C2_setattr_merge.2.2.1 [] "bio" rfl,
   claim_C2_setattr_merge.2.2.2.2 [("bio", PyVal.strV "hello")] (PyVal.dictV [("id", PyVal.intV 1)])
     "hello" rfl rfl⟩

/-- C4 is a code bug: the source guards every timestamp parse with
`type(self.f) == 'str'`, comparing a type object against a string, which is
Python-false; so the normalization never runs and a timestamp delivered as
an ISO-8601 string stays a raw string after `_update_all`, never becoming a
parsed instant. -/
theorem claim_C4_timestamp_raw :
    (∀ (s : Attrs) (nm : String), normTs s nm = s)
    ∧ lookupStr (userInitAttrs (PyVal.dictV
        [("history", PyVal.dictV [("joined", PyVal.strV "2007-03-05T00:00:00.000000+00:00")])]))
        "joined_at" = some (PyVal.strV "2007-03-05T00:00:00.000000+00:00")
    ∧ lookupStr (studioInitAttrs (PyVal.dictV
        [("created", PyVal.strV "2011-01-01T00:00:00.000000+00:00")]))
        "created_at" = some (PyVal.strV "2011-01-01T00:00:00.000000+00:00") :=
  ⟨normTs_eq_self, rfl, rfl⟩

/-- C3 as frozen is refuted here: the claim extends the `NotFound`
translation to the sub-fetch operations on resources, but `User.fetch_api`
applied to the body `code = NotFound` completes without raising — the
source has no soft-failure check outside the four `APIClient` routines. -/
theorem claim_C3_counterexample :
    exceptOk (userFetchApi
      (userInitAttrs (PyVal.dictV [("username", PyVal.strV "alice")]))
      (mkResponse (PyVal.dictV [("code", PyVal.strV "NotFound"),
        ("message", PyVal.strV "nf")]))) = true := rfl

/-- C3 amended: a decoded body carrying `code = NotFound` is translated to
`NotFoundError` — and no resource is constructed — by the four top-level
`APIClient` fetch routines; the resource-level sub-fetch `User.fetch_api`
performs no such translation and merges the body as ordinary data. -/
theorem claim_C3_notfound_translation (resp body : PyVal) (self : Attrs)
    (hresp : respJson resp = .ok body)
    (hin : pyInE "code" body = .ok true)
    (hcode : pySubscript body (PyVal.strV "code") = some (PyVal.strV "NotFound")) :
    fetchUser resp = .error .notFoundError
    ∧ fetchProject resp = .error .notFoundError
    ∧ fetchStudio resp = .error .notFoundError
    ∧ fetchMessageCount resp = .error .notFoundError
    ∧ userFetchApi self resp = .ok (userUpdateAll self body) := by
  have hcnf : checkNotFound body = .error .notFoundError := by
    unfold checkNotFound pySubscriptE
    rw [hin, hcode]
    rfl
  refine ⟨?_, ?_, ?_, ?_, ?_⟩
  · unfold fetchUser
    rw [hresp]
    simp only [except_bind_ok, hcnf, except_bind_error]
  · unfold fetchProject
    rw [hresp]
    simp only [except_bind_ok, hcnf, except_bind_error]
  · unfold fetchStudio
    rw [hresp]
    simp only [except_bind_ok, hcnf, except_bind_error]
  · unfold fetchMessageCount
    rw [hresp]
    simp only [except_bind_ok, hcnf, except_bind_error]
  · unfold userFetchApi
    rw [hresp]
    simp only [except_bind_ok]

/-- Witness for the amended C3 at the concrete soft-failure body. -/
theorem claim_C3_notfound_translation_witness :
    fetchUser (mkResponse (PyVal.dictV [("code", PyVal.strV "NotFound"),
        ("message", PyVal.strV "nf")])) = .error .notFoundError
    ∧ userFetchApi [] (mkResponse (PyVal.dictV [("code", PyVal.strV "NotFound"),
        ("message", PyVal.strV "nf")]))
      = .ok (userUpdateAll [] (PyVal.dictV [("code", PyVal.strV "NotFound"),
        ("message", PyVal.strV "nf")])) :=
  ⟨(claim_C3_notfound_translation
      (mkResponse (PyVal.dictV [("code", PyVal.strV "NotFound"), ("message", PyVal.strV "nf")]))
      (PyVal.dictV [("code", PyVal.strV "NotFound"), ("message", PyVal.strV "nf")])
      [] rfl rfl rfl).1,
   (claim_C3_notfound_translation
      (mkResponse (PyVal.dictV [("code", PyVal.strV "NotFound"), ("message", PyVal.strV "nf")]))
      (PyVal.dictV [("code", PyVal.strV "NotFound"), ("message", PyVal.strV "nf")])
      [] rfl rfl rfl).2.2.2.2⟩

/-- C8 is a code bug exhibit: constructing a `Project` or a `Comment` from
data lacking the `author` key raises `TypeError`, because
`Author(self.client, **get_keys(data, ['author']))` splats the `NotFound`
sentinel; the documented design (absent fields become the sentinel) would
require these constructions to succeed. -/
theorem claim_C8_construction_raises :
    projectInitAttrs (PyVal.dictV []) = .error .typeError
    ∧ commentInitAttrs 0 (PyVal.dictV [("id", PyVal.intV 1)]) = .error .typeError
    ∧ exceptOk (projectInitAttrs (PyVal.dictV [("author", PyVal.dictV [])])) = true :=
  ⟨rfl, rfl, rfl⟩

/-- C9 is a code bug exhibit: `Studio.fetch_api` reads `await data.json`,
awaiting the bound method object without calling it, so for every response
the call raises `TypeError` and `_update_all` never receives a decoded
body. -/
theorem claim_C9_studio_fetch_api (self : Attrs) (body : PyVal) :
    studioFetchApi self (mkResponse body) = .error .typeError := rfl

/-- C10: a Comment constructed with the Profile context kind reaches the
transport GET of `fetch_replies` with `PATH` never assigned — neither
endpoint branch is taken — so the call fails with `UnboundLocalError` and
issues zero transport calls. -/
theorem claim_C10_profile_replies (self : Attrs) (offset limit : Int) (resp : PyVal)
    (h : lookupStr self "comment_type" = some (commentTypeV 2)) :
    commentFetchReplies self offset limit resp = (0, .error .unboundLocalError) := by
  unfold commentFetchReplies commentReplyPath commentTypeValE getattrE
  rw [h]
  rfl

/-- Witness for C10 at a concrete Profile comment. -/
theorem claim_C10_profile_replies_witness :
    commentFetchReplies (setattr (setattr [] "client" PyVal.clientV)
      "comment_type" (commentTypeV 2)) 0 20 PyVal.noneV
      = (0, .error .unboundLocalError) :=
  claim_C10_profile_replies
    (setattr (setattr [] "client" PyVal.clientV) "comment_type" (commentTypeV 2))
    0 20 PyVal.noneV rfl

/-- C6: a studio-projects listing element with keys `id, title, image,
creator_id, username` becomes a `StudioProject` whose author holds
`id = creator_id` and `name = username`, and whose every field not carried
by the listing — description, instructions, flags, timestamps, stats
counters, remix lineage, and the author's remaining fields — reads as the
sentinel.  The full resulting attribute dictionary is given explicitly. -/
theorem claim_C6_studio_project (proj i t img cid un : PyVal)
    (hi : pySubscript proj (PyVal.strV "id") = some i)
    (ht : pySubscript proj (PyVal.strV "title") = some t)
    (him : pySubscript proj (PyVal.strV "image") = some img)
    (hc : pySubscript proj (PyVal.strV "creator_id") = some cid)
    (hu : pySubscript proj (PyVal.strV "username") = some un) :
    studioBuildProject proj = .ok (PyVal.objV "StudioProject"
      [("client", PyVal.clientV), ("project_json", PyVal.noneV), ("id", i), ("title", t),
       ("description", PyVal.notFoundV), ("instructions", PyVal.notFoundV),
       ("visibility", PyVal.notFoundV), ("public", PyVal.notFoundV),
       ("comments_allowed", PyVal.notFoundV), ("is_published", PyVal.notFoundV),
       ("author", PyVal.objV "Author"
         [("client", PyVal.clientV), ("id", cid), ("name", un),
          ("scratchteam", PyVal.notFoundV), ("joined_at", PyVal.notFoundV),
          ("image_90x90", PyVal.notFoundV), ("image_60x60", PyVal.notFoundV),
          ("image_55x55", PyVal.notFoundV), ("image_50x50", PyVal.notFoundV),
          ("image_32x32", PyVal.notFoundV), ("status", PyVal.notFoundV),
          ("bio", PyVal.notFoundV), ("country", PyVal.notFoundV)]),
       ("image", img), ("created_at", PyVal.notFoundV), ("modified_at", PyVal.notFoundV),
       ("shared_at", PyVal.notFoundV), ("views", PyVal.notFoundV), ("loves", PyVal.notFoundV),
       ("favorites", PyVal.notFoundV), ("remixes", PyVal.notFoundV),
       ("remix_parent", PyVal.notFoundV), ("remix_root", PyVal.notFoundV)]) := by
  unfold studioBuildProject pySubscriptE
  rw [hi, ht, him, hc, hu]
  simp [projectInitAttrs, projectUpdateAll, userInitAttrs, userUpdateAll,
        normTs_eq_self, get_keys, pySubscript, lookupStr, setattr, insertAttr,
        hasKey, isNotFound, splatKwargs, except_bind_ok]

/-- Witness for C6 at a concrete listing element. -/
theorem claim_C6_studio_project_witness :
    studioBuildProject (PyVal.dictV
      [("id", PyVal.intV 5), ("title", PyVal.strV "T"), ("image", PyVal.strV "img"),
       ("creator_id", PyVal.intV 9), ("username", PyVal.strV "u")])
      = .ok (PyVal.objV "StudioProject"
      [("client", PyVal.clientV), ("project_json", PyVal.noneV),
       ("id", PyVal.intV 5), ("title", PyVal.strV "T"),
       ("description", PyVal.notFoundV), ("instructions", PyVal.notFoundV),
       ("visibility", PyVal.notFoundV), ("public", PyVal.notFoundV),
       ("comments_allowed", PyVal.notFoundV), ("is_published", PyVal.notFoundV),
       ("author", PyVal.objV "Author"
         [("client", PyVal.clientV), ("id", PyVal.intV 9), ("name", PyVal.strV "u"),
          ("scratchteam", PyVal.notFoundV), ("joined_at", PyVal.notFoundV),
          ("image_90x90", PyVal.notFoundV), ("image_60x60", PyVal.notFoundV),
          ("image_55x55", PyVal.notFoundV), ("image_50x50", PyVal.notFoundV),
          ("image_32x32", PyVal.notFoundV), ("status", PyVal.notFoundV),
          ("bio", PyVal.notFoundV), ("country", PyVal.notFoundV)]),
       ("image", PyVal.strV "img"), ("created_at", PyVal.notFoundV),
       ("modified_at", PyVal.notFoundV), ("shared_at", PyVal.notFoundV),
       ("views", PyVal.notFoundV), ("loves", PyVal.notFoundV),
       ("favorites", PyVal.notFoundV), ("remixes", PyVal.notFoundV),
       ("remix_parent", PyVal.notFoundV), ("remix_root", PyVal.notFoundV)]) :=
  claim_C6_studio_project _ _ _ _ _ _ rfl rfl rfl rfl rfl

/-- The accumulation loop equals the specification-side sum when every
sprite carries a `blocks` dictionary. -/
theorem blockLoop_eq_blockSum (sprites : List PyVal)
    (h : ∀ s ∈ sprites, ∃ kvs, pySubscript s (PyVal.strV "blocks") = some (PyVal.dictV kvs)) :
    blockLoop sprites = .ok (blockSum sprites) := by
  induction sprites with
  | nil => rfl
  | cons s rest ih =>
      obtain ⟨kvs, hs⟩ := h s (List.mem_cons_self s rest)
      have hrest := ih (fun x hx => h x (List.mem_cons_of_mem s hx))
      unfold blockLoop pySubscriptE
      rw [hs]
      simp only [except_bind_ok]
      unfold pyLenE
      simp only [except_bind_ok]
      rw [hrest]
      simp only [except_bind_ok]
      simp [blockSum, blocksLenD, hs]

/-- C5 as frozen is refuted here: two consecutive `fetch_block_count` calls
on a fresh project issue two content fetches, not one — `fetch_project_json`
fetches unconditionally, never consulting the already-populated
`project_json` cache slot — though each call does return the sum of the
block-map sizes (3 for the sample content). -/
theorem claim_C5_counterexample :
    (do
      let (st1, n1) ← projectFetchBlockCount sampleContent { attrs := [], fetches := 0 }
      let (st2, n2) ← projectFetchBlockCount sampleContent st1
      pure (st2.fetches, n1, n2) : Except PyErr (Nat × Int × Int)) = .ok (2, 3, 3)
    ∧ (2 : Nat) ≠ 1 :=
  ⟨rfl, by decide⟩

/-- C5 amended: every `fetch_block_count` call issues exactly one content
fetch (incrementing the fetch count by one and overwriting the
`project_json` slot with the fetched content — there is no cache hit), and
returns the sum of the block-map sizes over all sprites in the fetched
content's `targets` array. -/
theorem claim_C5_block_count (content : PyVal) (st : ProjState) (sprites : List PyVal)
    (htg : pySubscript content (PyVal.strV "targets") = some (PyVal.listV sprites))
    (hsp : ∀ s ∈ sprites, ∃ kvs, pySubscript s (PyVal.strV "blocks") = some (PyVal.dictV kvs)) :
    projectFetchBlockCount content st =
      .ok ({ attrs := setattr st.attrs "project_json" content, fetches := st.fetches + 1 },
           blockSum sprites) := by
  have hres : respJson (mkResponse content) = .ok content := rfl
  unfold projectFetchBlockCount projectFetchJson
  rw [hres]
  simp only [except_bind_ok]
  unfold pySubscriptE
  rw [htg]
  simp only [except_bind_ok]
  unfold pyIterE
  simp only [except_bind_ok]
  rw [blockLoop_eq_blockSum sprites hsp]
  simp only [except_bind_ok]

/-- Witness for the amended C5 at the sample content server. -/
theorem claim_C5_block_count_witness :
    projectFetchBlockCount sampleContent { attrs := [], fetches := 0 } =
      .ok ({ attrs := setattr [] "project_json" sampleContent, fetches := 0 + 1 },
           blockSum sampleSprites) :=
  claim_C5_block_count sampleContent { attrs := [], fetches := 0 } sampleSprites rfl
    (by
      intro s hs
      cases hs with
      | head => exact ⟨_, rfl⟩
      | tail _ hs2 =>
          cases hs2 with
          | head => exact ⟨_, rfl⟩
          | tail _ hs3 => cases hs3)

/-! Context-kind routing helpers for Comment / Reply (claim C7). -/

theorem commentInit_project_lookups (bv : PyVal) (kvs : List (String × PyVal)) (a : Attrs)
    (h : commentInitAttrs 0 (dictV (("project", bv) :: kvs)) = .ok a) :
    lookupStr a "project" = some bv ∧ lookupStr a "studio" = none ∧
    lookupStr a "comment_type" = some (commentTypeV 0) := by
  unfold commentInitAttrs commentUpdateAll at h
  cases hsp : splatKwargs (get_keys (dictV (("project", bv) :: kvs)) [strV "author"]) with
  | error e =>
      rw [hsp] at h
      simp [commentTypeValE, getattrE, setattr, insertAttr, hasKey, isNotFound,
            lookupStr, commentTypeV, except_bind_ok, except_bind_error, normTs_eq_self] at h
  | ok akvs =>
      rw [hsp] at h
      simp [commentTypeValE, getattrE, setattr, insertAttr, hasKey, isNotFound,
            lookupStr, commentTypeV, get_keys, pySubscript,
            except_bind_ok, except_bind_error, normTs_eq_self] at h
      subst h
      refine ⟨?_, ?_, ?_⟩ <;> simp [lookupStr, commentTypeV]

theorem commentInit_studio_lookups (bv : PyVal) (kvs : List (String × PyVal)) (a : Attrs)
    (h : commentInitAttrs 1 (dictV (("studio", bv) :: kvs)) = .ok a) :
    lookupStr a "studio" = some bv ∧ lookupStr a "project" = none ∧
    lookupStr a "comment_type" = some (commentTypeV 1) := by
  unfold commentInitAttrs commentUpdateAll at h
  cases hsp : splatKwargs (get_keys (dictV (("studio", bv) :: kvs)) [strV "author"]) with
  | error e =>
      rw [hsp] at h
      simp [commentTypeValE, getattrE, setattr, insertAttr, hasKey, isNotFound,
            lookupStr, commentTypeV, except_bind_ok, except_bind_error, normTs_eq_self] at h
  | ok akvs =>
      rw [hsp] at h
      simp [commentTypeValE, getattrE, setattr, insertAttr, hasKey, isNotFound,
            lookupStr, commentTypeV, get_keys, pySubscript,
            except_bind_ok, except_bind_error, normTs_eq_self] at h
      subst h
      refine ⟨?_, ?_, ?_⟩ <;> simp [lookupStr, commentTypeV]

theorem replyKwargs_ok_shape (bn : String) (bv c kw : PyVal)
    (h : replyKwargs bn bv c = .ok kw) :
    ∃ ckvs, kw = dictV ((bn, bv) :: ckvs) := by
  unfold replyKwargs at h
  cases hsc : splatKwargs c with
  | error e =>
      rw [hsc, except_bind_error] at h
      exact absurd h (by simp)
  | ok ckvs =>
      rw [hsc, except_bind_ok] at h
      by_cases hdup : (ckvs.any (fun kv => kv.1 = bn)) = true
      · rw [if_pos hdup] at h
        simp at h
      · rw [if_neg hdup] at h
        injection h with h
        exact ⟨ckvs, h.symm⟩

theorem buildReplies_project_mem (back : PyVal) (ws : List PyVal) (reps : List PyVal)
    (h : buildReplies 0 back ws = .ok reps) :
    ∀ r ∈ reps, ∃ ra, r = objV "Reply" ra
      ∧ lookupStr ra "comment_type" = some (commentTypeV 0)
      ∧ lookupStr ra "project" = some back
      ∧ lookupStr ra "studio" = none := by
  induction ws generalizing reps with
  | nil =>
      injection h with h
      subst h
      intro r hr
      cases hr
  | cons c cs ih =>
      have h' : (do
          let kw ← replyKwargs "project" back c
          let a ← commentInitAttrs 0 kw
          let rest ← buildReplies 0 back cs
          (.ok (objV "Reply" a :: rest) : Except PyErr (List PyVal))) = .ok reps := h
      cases hkw : replyKwargs "project" back c with
      | error e => rw [hkw, except_bind_error] at h'; simp at h'
      | ok kw =>
          rw [hkw, except_bind_ok] at h'
          cases ha : commentInitAttrs 0 kw with
          | error e => rw [ha, except_bind_error] at h'; simp at h'
          | ok ra =>
              rw [ha, except_bind_ok] at h'
              cases hr : buildReplies 0 back cs with
              | error e => rw [hr, except_bind_error] at h'; simp at h'
              | ok rest =>
                  rw [hr, except_bind_ok] at h'
                  injection h' with h'
                  subst h'
                  obtain ⟨ckvs, hshape⟩ := replyKwargs_ok_shape "project" back c kw hkw
                  subst hshape
                  intro r hrm
                  cases hrm with
                  | head =>
                      obtain ⟨l1, l2, l3⟩ := commentInit_project_lookups back ckvs ra ha
                      exact ⟨ra, rfl, l3, l1, l2⟩
                  | tail _ hm => exact ih rest hr r hm

theorem buildReplies_studio_mem (back : PyVal) (ws : List PyVal) (reps : List PyVal)
    (h : buildReplies 1 back ws = .ok reps) :
    ∀ r ∈ reps, ∃ ra, r = objV "Reply" ra
      ∧ lookupStr ra "comment_type" = some (commentTypeV 1)
      ∧ lookupStr ra "studio" = some back
      ∧ lookupStr ra "project" = none := by
  induction ws generalizing reps with
  | nil =>
      injection h with h
      subst h
      intro r hr
      cases hr
  | cons c cs ih =>
      have h' : (do
          let kw ← replyKwargs "studio" back c
          let a ← commentInitAttrs 1 kw
          let rest ← buildReplies 1 back cs
          (.ok (objV "Reply" a :: rest) : Except PyErr (List PyVal))) = .ok reps := h
      cases hkw : replyKwargs "studio" back c with
      | error e => rw [hkw, except_bind_error] at h'; simp at h'
      | ok kw =>
          rw [hkw, except_bind_ok] at h'
          cases ha : commentInitAttrs 1 kw with
          | error e => rw [ha, except_bind_error] at h'; simp at h'
          | ok ra =>
              rw [ha, except_bind_ok] at h'
              cases hr : buildReplies 1 back cs with
              | error e => rw [hr, except_bind_error] at h'; simp at h'
              | ok rest =>
                  rw [hr, except_bind_ok] at h'
                  injection h' with h'
                  subst h'
                  obtain ⟨ckvs, hshape⟩ := replyKwargs_ok_shape "studio" back c kw hkw
                  subst hshape
                  intro r hrm
                  cases hrm with
                  | head =>
                      obtain ⟨l1, l2, l3⟩ := commentInit_studio_lookups back ckvs ra ha
                      exact ⟨ra, rfl, l3, l1, l2⟩
                  | tail _ hm => exact ih rest hr r hm

/-- C7: context-kind routing.  A project-kind Comment stores the passed
project back-reference and no studio attribute (and dually for the studio
kind); `fetch_replies` on a project-kind comment issues one GET against the
project-reply endpoint template, on a studio-kind comment against the
studio-reply template, and every returned Reply carries the parent's
context kind and the very same back-reference object, with the other
back-reference attribute absent. -/
theorem claim_C7_comment_context :
    (∀ (bv : PyVal) (kvs : List (String × PyVal)) (a : Attrs),
        commentInitAttrs 0 (dictV (("project", bv) :: kvs)) = .ok a →
        lookupStr a "project" = some bv ∧ lookupStr a "studio" = none ∧
        lookupStr a "comment_type" = some (commentTypeV 0))
    ∧ (∀ (bv : PyVal) (kvs : List (String × PyVal)) (a : Attrs),
        commentInitAttrs 1 (dictV (("studio", bv) :: kvs)) = .ok a →
        lookupStr a "studio" = some bv ∧ lookupStr a "project" = none ∧
        lookupStr a "comment_type" = some (commentTypeV 1))
    ∧ (∀ (self pA aA : Attrs) (nm pid cid : PyVal) (o l : Int) (resp : PyVal),
        lookupStr self "comment_type" = some (commentTypeV 0) →
        lookupStr self "project" = some (objV "Project" pA) →
        lookupStr pA "author" = some (objV "Author" aA) →
        lookupStr aA "name" = some nm →
        lookupStr pA "id" = some pid →
        lookupStr self "id" = some cid →
        (commentFetchReplies self o l resp).1 = 1 ∧
        ∀ (path : String) (reps : List PyVal),
          (commentFetchReplies self o l resp).2 = .ok (path, reps) →
          path = projectRepliesURL nm pid cid o l ∧
          ∀ r ∈ reps, ∃ ra, r = objV "Reply" ra
            ∧ lookupStr ra "comment_type" = some (commentTypeV 0)
            ∧ lookupStr ra "project" = some (objV "Project" pA)
            ∧ lookupStr ra "studio" = none)
    ∧ (∀ (self sA : Attrs) (sid cid : PyVal) (o l : Int) (resp : PyVal),
        lookupStr self "comment_type" = some (commentTypeV 1) →
        lookupStr self "studio" = some (objV "Studio" sA) →
        lookupStr sA "id" = some sid →
        lookupStr self "id" = some cid →
        (commentFetchReplies self o l resp).1 = 1 ∧
        ∀ (path : String) (reps : List PyVal),
          (commentFetchReplies self o l resp).2 = .ok (path, reps) →
          path = studioRepliesURL sid cid o l ∧
          ∀ r ∈ reps, ∃ ra, r = objV "Reply" ra
            ∧ lookupStr ra "comment_type" = some (commentTypeV 1)
            ∧ lookupStr ra "studio" = some (objV "Studio" sA)
            ∧ lookupStr ra "project" = none) := by
  refine ⟨commentInit_project_lookups, commentInit_studio_lookups, ?_, ?_⟩
  · intro self pA aA nm pid cid o l resp h1 h2 h3 h4 h5 h6
    have hpath : commentReplyPath self o l = .ok (some (projectRepliesURL nm pid cid o l)) := by
      simp [commentReplyPath, commentTypeValE, getattrE, pyGetattr,
            h1, h2, h3, h4, h5, h6, commentTypeV, except_bind_ok]
    have hctv : commentTypeValE self = .ok 0 := by
      simp [commentTypeValE, getattrE, h1, commentTypeV, except_bind_ok]
    have hback : getattrE self "project" = .ok (objV "Project" pA) := by
      simp [getattrE, h2]
    have hred : commentFetchReplies self o l resp = (1, do
        let body ← respJson resp
        let items ← pyIterE body
        let ct ← commentTypeValE self
        let back ← if ct = 0 then getattrE self "project" else getattrE self "studio"
        let reps2 ← buildReplies ct back items
        (.ok (projectRepliesURL nm pid cid o l, reps2) : Except PyErr (String × List PyVal))) := by
      unfold commentFetchReplies
      rw [hpath]
    constructor
    · rw [hred]
    · intro path reps hok
      rw [hred] at hok
      cases hb : respJson resp with
      | error e => rw [hb, except_bind_error] at hok; simp at hok
      | ok body =>
          rw [hb, except_bind_ok] at hok
          cases hit : pyIterE body with
          | error e => rw [hit, except_bind_error] at hok; simp at hok
          | ok items =>
              rw [hit, except_bind_ok] at hok
              rw [hctv, except_bind_ok] at hok
              rw [if_pos rfl, hback, except_bind_ok] at hok
              beta_reduce at hok
              cases hbr : buildReplies 0 (objV "Project" pA) items with
              | error e => rw [hbr, except_bind_error] at hok; simp at hok
              | ok reps2 =>
                  rw [hbr, except_bind_ok] at hok
                  have hok2 : (Except.ok (projectRepliesURL nm pid cid o l, reps2)
                      : Except PyErr (String × List PyVal)) = .ok (path, reps) := hok
                  injection hok2 with hok2
                  injection hok2 with hu hr
                  subst hu
                  subst hr
                  exact ⟨rfl, buildReplies_project_mem (objV "Project" pA) items reps2 hbr⟩
  · intro self sA sid cid o l resp h1 h2 h3 h4
    have hpath : commentReplyPath self o l = .ok (some (studioRepliesURL sid cid o l)) := by
      simp [commentReplyPath, commentTypeValE, getattrE, pyGetattr,
            h1, h2, h3, h4, commentTypeV, except_bind_ok]
    have hctv : commentTypeValE self = .ok 1 := by
      simp [commentTypeValE, getattrE, h1, commentTypeV, except_bind_ok]
    have hback : getattrE self "studio" = .ok (objV "Studio" sA) := by
      simp [getattrE, h2]
    have hred : commentFetchReplies self o l resp = (1, do
        let body ← respJson resp
        let items ← pyIterE body
        let ct ← commentTypeValE self
        let back ← if ct = 0 then getattrE self "project" else getattrE self "studio"
        let reps2 ← buildReplies ct back items
        (.ok (studioRepliesURL sid cid o l, reps2) : Except PyErr (String × List PyVal))) := by
      unfold commentFetchReplies
      rw [hpath]
    constructor
    · rw [hred]
    · intro path reps hok
      rw [hred] at hok
      cases hb : respJson resp with
      | error e => rw [hb, except_bind_error] at hok; simp at hok
      | ok body =>
          rw [hb, except_bind_ok] at hok
          cases hit : pyIterE body with
          | error e => rw [hit, except_bind_error] at hok; simp at hok
          | ok items =>
              rw [hit, except_bind_ok] at hok
              rw [hctv, except_bind_ok] at hok
              rw [if_neg (by decide : ¬(1 : Nat) = 0), hback, except_bind_ok] at hok
              beta_reduce at hok
              cases hbr : buildReplies 1 (objV "Studio" sA) items with
              | error e => rw [hbr, except_bind_error] at hok; simp at hok
              | ok reps2 =>
                  rw [hbr, except_bind_ok] at hok
                  have hok2 : (Except.ok (studioRepliesURL sid cid o l, reps2)
                      : Except PyErr (String × List PyVal)) = .ok (path, reps) := hok
                  injection hok2 with hok2
                  injection hok2 with hu hr
                  subst hu
                  subst hr
                  exact ⟨rfl, buildReplies_studio_mem (objV "Studio" sA) items reps2 hbr⟩

/-- Witness for C7: a concrete project-kind comment with a one-element
reply listing satisfies all the routing hypotheses. -/
theorem claim_C7_comment_context_witness :
    (commentFetchReplies sampleComment 0 20 (mkResponse sampleWire)).1 = 1 :=
  (claim_C7_comment_context.2.2.1 sampleComment samplePA [("name", strV "al")]
    (strV "al") (intV 7) (intV 3) 0 20 (mkResponse sampleWire)
    rfl rfl rfl rfl rfl rfl).1

end Scratchcloud
